import Mathlib

/-!
# Verification of the bias-detection core (`src/bias_metrics.py`, `src/mitigation.py`,
and the supervised-analysis glue in `dashboard/app.py`)

Shallow embedding conventions:
* A dataset is modelled after the two columns the metric functions actually read:
  each `Row` carries the value of the selected sensitive-attribute column
  (`Option String`, with `none` for a missing value / NaN) and the value of the
  selected target column (`String`).
* Python floats are idealized as exact rationals `ℚ`; `int(x)` is truncation
  toward zero (`pyInt`), `round(x, 3)` is round-half-to-even at the third decimal
  (`round3`), matching Python semantics under exact decimal arithmetic.
* Where Python would raise (e.g. `max([])`) or produce NaN (mean of an empty
  slice), the embedding uses a junk value (`0`, `""`); every theorem below only
  exercises these functions away from those degenerate points, or guards them
  with the same condition the code does.
-/

namespace BiasDetection

/-- A row of the dataset projected to the two selected columns: the sensitive
attribute value (`none` = missing / NaN) and the target column value. -/
structure Row where
  sensitive : Option String
  target : String
deriving DecidableEq

/-- A dataset, for this module's purposes, is its list of rows. -/
abbrev DataFrame := List Row

/-- Helper for `firstUnique`: the accumulator holds the values already seen. -/
def firstUniqueAux {α : Type} [DecidableEq α] : List α → List α → List α
  | [], _ => []
  | x :: xs, seen =>
    if x ∈ seen then firstUniqueAux xs seen else x :: firstUniqueAux xs (x :: seen)

/-- Distinct values of a list in order of first appearance (pandas `Series.unique`). -/
def firstUnique {α : Type} [DecidableEq α] (l : List α) : List α := firstUniqueAux l []

/-- Python `max` over a list of rationals (junk value `0` on `[]`, where Python raises). -/
def listMax : List ℚ → ℚ
  | [] => 0
  | x :: xs => xs.foldl max x

/-- Python `min` over a list of rationals (junk value `0` on `[]`, where Python raises). -/
def listMin : List ℚ → ℚ
  | [] => 0
  | x :: xs => xs.foldl min x

/-- Python `max` over a list of naturals (junk value `0` on `[]`). -/
def listMaxNat : List ℕ → ℕ
  | [] => 0
  | x :: xs => xs.foldl max x

/-- Round to the nearest integer, ties to even: Python `round` under exact
decimal arithmetic. -/
def roundHalfEven (q : ℚ) : ℤ :=
  if q - ⌊q⌋ < 1/2 then ⌊q⌋
  else if q - ⌊q⌋ > 1/2 then ⌊q⌋ + 1
  else if ⌊q⌋ % 2 = 0 then ⌊q⌋ else ⌊q⌋ + 1

/-- Python `round(x, 3)`. -/
def round3 (q : ℚ) : ℚ := (roundHalfEven (q * 1000) : ℚ) / 1000

/-- Python `int(x)`: truncation toward zero. -/
def pyInt (q : ℚ) : ℤ := if 0 ≤ q then ⌊q⌋ else -⌊-q⌋

/-- The sensitive-attribute column `df[sensitive_attr]`. -/
def sensColumn (df : DataFrame) : List (Option String) := df.map Row.sensitive

/-- The group list `df[sensitive_attr].dropna().unique()`. -/
def groupsDropna (df : DataFrame) : List String := firstUnique (df.filterMap Row.sensitive)

/-- The subgroup `df[df[sensitive_attr] == group]`. -/
def groupRows (df : DataFrame) (g : String) : DataFrame :=
  df.filter (fun r => r.sensitive == some g)

/-- The mean `(group_df[target_attr] == positive_label).mean()`: the positive-outcome rate of
group `g` (in `ℚ`, `0 / 0 = 0` where pandas yields NaN on an empty subgroup). -/
def posRate (df : DataFrame) (positive : String) (g : String) : ℚ :=
  ((groupRows df g).countP (fun r => r.target == positive) : ℚ)
    / ((groupRows df g).length : ℚ)

/-- Embedding of `label_bias` from `src/bias_metrics.py`. -/
def label_bias (df : DataFrame) (positive : String) : ℚ :=
  let rates := (groupsDropna df).map (posRate df positive)
  let label_diff := if rates.length > 1 then listMax rates - listMin rates else 0
  round3 label_diff

/-- Embedding of `historical_bias` from `src/bias_metrics.py`. -/
def historical_bias (df : DataFrame) (positive : String) : ℚ :=
  let outcomes := (groupsDropna df).map (posRate df positive)
  let hist_diff := if outcomes.length > 1 then listMax outcomes - listMin outcomes else 0
  round3 hist_diff

/-- Embedding of `statistical_parity_difference` from `src/bias_metrics.py`. -/
def statistical_parity_difference (df : DataFrame) (positive ref_group : String) : ℚ :=
  let ref_rate := posRate df positive ref_group
  let spd_vals := (groupsDropna df).map (fun g => posRate df positive g - ref_rate)
  let max_spd := if spd_vals ≠ [] then listMax (spd_vals.map (fun v => |v|)) else 0
  round3 max_spd

/-- The `deviations` list built by the loop of `disparate_impact`: a group
contributes `|1 - group_rate / ref_rate|` only when `ref_rate > 0`. -/
def diDeviations (df : DataFrame) (positive ref_group : String) : List ℚ :=
  let ref_rate := posRate df positive ref_group
  (groupsDropna df).foldr
    (fun g acc =>
      if ref_rate > 0 then |1 - posRate df positive g / ref_rate| :: acc else acc) []

/-- Embedding of `disparate_impact` from `src/bias_metrics.py`. -/
def disparate_impact (df : DataFrame) (positive ref_group : String) : ℚ :=
  let deviations := diDeviations df positive ref_group
  let max_di_dev := if deviations ≠ [] then listMax deviations else 0
  round3 max_di_dev

/-- A row of `rep_df` produced by `representation_and_sampling_bias`. -/
structure RepRow where
  group : String
  count : ℕ
  proportion : ℚ
deriving DecidableEq

/-- pandas `astype(str)` on an index containing NaN. -/
def sensToStr : Option String → String
  | some s => s
  | none => "nan"

/-- The raw count of value `g` in the sensitive column (NaN kept, `dropna=False`). -/
def colCount (df : DataFrame) (g : Option String) : ℕ := (sensColumn df).count g

/-- Stable insertion step of the count-descending sort behind `value_counts`. -/
def insertDesc (df : DataFrame) (x : Option String) :
    List (Option String) → List (Option String)
  | [] => [x]
  | y :: ys => if colCount df x ≤ colCount df y then y :: insertDesc df x ys
               else x :: y :: ys

/-- Sort group keys by count, descending, stably (ties keep first-appearance
order), as `value_counts(dropna=False)` orders its index. -/
def sortByCountDesc (df : DataFrame) (l : List (Option String)) : List (Option String) :=
  l.foldl (fun acc x => insertDesc df x acc) []

/-- Embedding of `representation_and_sampling_bias` from `src/bias_metrics.py`: returns
`rep_df` (group keys stringified, counts, proportions rounded to 3 decimals, in
`value_counts` order) and the minimum proportion rounded to 3 decimals. -/
def representation_and_sampling_bias (df : DataFrame) : List RepRow × ℚ :=
  let total : ℚ := (df.length : ℚ)
  let keys := sortByCountDesc df (firstUnique (sensColumn df))
  let rep_df := keys.map (fun g =>
    { group := sensToStr g, count := colCount df g,
      proportion := round3 ((colCount df g : ℚ) / total) : RepRow })
  let proportions := (firstUnique (sensColumn df)).map
    (fun g => (colCount df g : ℚ) / total)
  (rep_df, round3 (listMin proportions))

/-- The index `rep_df["count"].idxmax()`: the index of the first row attaining the maximal
count. -/
def idxmaxCount (rows : List RepRow) : ℕ :=
  rows.findIdx (fun r => r.count == listMaxNat (rows.map RepRow.count))

/-- Embedding of `reference_group = rep_df.loc[rep_df["count"].idxmax(), "group"]` from
`dashboard/app.py` (junk `""` on an empty frame, where pandas raises). -/
def reference_group (df : DataFrame) : String :=
  let rep_df := (representation_and_sampling_bias df).1
  ((rep_df[idxmaxCount rep_df]?).map RepRow.group).getD ""

/-- The verdict record returned by `final_bias_verdict` / `unsupervised_bias_verdict`. -/
structure Verdict where
  verdict : String
  bias_percentage : ℤ
  reason : String
deriving DecidableEq

/-- Embedding of `final_bias_verdict` from `src/bias_metrics.py`. -/
def final_bias_verdict
    (min_representation label_diff historical_diff max_spd max_di_deviation : ℚ) :
    Verdict :=
  let rep_score := max 0 ((0.5 - min_representation) / 0.5)
  let label_score := min (label_diff / 0.3) 1.0
  let hist_score := min (historical_diff / 0.3) 1.0
  let spd_score := min (max_spd / 0.3) 1.0
  let di_score := min (max_di_deviation / 0.5) 1.0
  let outcome_severity := max (max (max label_score hist_score) spd_score) di_score
  let severity := max outcome_severity rep_score
  let bias_percentage := pyInt (severity * 100)
  if bias_percentage ≥ 60 then
    { verdict := "BIASED", bias_percentage := bias_percentage,
      reason := "Severe outcome-based disparity detected across groups." }
  else if bias_percentage ≥ 30 then
    { verdict := "POTENTIALLY BIASED", bias_percentage := bias_percentage,
      reason := "Some disparity detected. Further investigation recommended." }
  else
    { verdict := "NOT BIASED", bias_percentage := bias_percentage,
      reason := "No significant bias detected." }

/-- The severity value computed inside `final_bias_verdict`, exposed for the
statements about `bias_percentage`. -/
def fbvSeverity
    (min_representation label_diff historical_diff max_spd max_di_deviation : ℚ) : ℚ :=
  max (max (max (max (min (label_diff / 0.3) 1.0) (min (historical_diff / 0.3) 1.0))
        (min (max_spd / 0.3) 1.0))
      (min (max_di_deviation / 0.5) 1.0))
    (max 0 ((0.5 - min_representation) / 0.5))

/-- Embedding of `unsupervised_bias_verdict` from `src/bias_metrics.py`. -/
def unsupervised_bias_verdict (min_representation : ℚ) : Verdict :=
  let verdict :=
    if min_representation < 0.3 then "HIGH RISK OF REPRESENTATION BIAS"
    else if min_representation < 0.4 then "POTENTIAL REPRESENTATION BIAS"
    else "NO DIRECT EVIDENCE OF BIAS (UNSUPERVISED)"
  let bias_percentage := pyInt ((0.5 - min_representation) / 0.5 * 100)
  let bias_percentage := max 0 (min bias_percentage 100)
  { verdict := verdict, bias_percentage := bias_percentage,
    reason := "Assessment based solely on group representation. Outcome fairness cannot be evaluated without labels." }

/-- Embedding of `detect_bias_types` from `dashboard/app.py`. -/
def detect_bias_types (min_rep label_diff hist_diff max_spd max_di_dev : ℚ) :
    List String :=
  let bias_types : List String := []
  let bias_types := if min_rep < 0.4 then bias_types ++ ["Representation Bias"] else bias_types
  let bias_types := if label_diff > 0.2 then bias_types ++ ["Label Bias"] else bias_types
  let bias_types := if hist_diff > 0.2 then bias_types ++ ["Historical Bias"] else bias_types
  let bias_types :=
    if max_spd > 0.1 ∨ max_di_dev > 0.2 then bias_types ++ ["Outcome Bias"] else bias_types
  if bias_types = [] then ["No Significant Bias Detected"] else bias_types

/-- Embedding of `diagnose_bias_and_recommend_fixes` from `src/mitigation.py`; the Python dict
`fixes` (insertion-ordered) is modelled as an association list. -/
def diagnose_bias_and_recommend_fixes
    (min_representation label_diff historical_diff max_spd max_di_deviation : ℚ) :
    List String × List (String × List String) :=
  let bias_types : List String := []
  let fixes : List (String × List String) := []
  let hitRep := min_representation < 0.4
  let bias_types := if hitRep then bias_types ++ ["Representation Bias"] else bias_types
  let fixes := if hitRep then fixes ++
    [("Representation Bias",
      ["Collect more data for underrepresented groups",
       "Use stratified sampling during data collection",
       "Apply re-weighting during model training (not data duplication)"])] else fixes
  let hitLabel := label_diff > 0.2
  let bias_types := if hitLabel then bias_types ++ ["Label Bias"] else bias_types
  let fixes := if hitLabel then fixes ++
    [("Label Bias",
      ["Audit labeling process for human or systemic bias",
       "Use blind or multi-annotator labeling",
       "Apply label smoothing or re-weighting during training"])] else fixes
  let hitHist := historical_diff > 0.2
  let bias_types := if hitHist then bias_types ++ ["Historical Bias"] else bias_types
  let fixes := if hitHist then fixes ++
    [("Historical Bias",
      ["Incorporate fairness constraints during model training",
       "Use counterfactual fairness techniques",
       "Add post-processing fairness adjustments"])] else fixes
  let hitOutcome := max_spd > 0.1 ∨ max_di_deviation > 0.2
  let bias_types := if hitOutcome then bias_types ++ ["Outcome Bias"] else bias_types
  let fixes := if hitOutcome then fixes ++
    [("Outcome Bias",
      ["Use fairness-aware algorithms (e.g., Fairlearn)",
       "Apply threshold optimization per group",
       "Use post-processing methods like equalized odds"])] else fixes
  if bias_types = [] then
    (["No Significant Bias Detected"],
     [("No Significant Bias Detected",
       ["Continue monitoring bias over time",
        "Validate fairness after model training"])])
  else (bias_types, fixes)

/-- Spec-side restatement of the bias-type classifier of §4.5: the ordered
concatenation of the triggered labels (representation, label, historical,
outcome, in that order), with the sentinel when no rule triggers. -/
def specBiasTypes (min_rep label_diff hist_diff max_spd max_di_dev : ℚ) : List String :=
  let triggered :=
    (if min_rep < 0.4 then ["Representation Bias"] else []) ++
    (if label_diff > 0.2 then ["Label Bias"] else []) ++
    (if hist_diff > 0.2 then ["Historical Bias"] else []) ++
    (if max_spd > 0.1 ∨ max_di_dev > 0.2 then ["Outcome Bias"] else [])
  if triggered = [] then ["No Significant Bias Detected"] else triggered

/-- The concrete 10-row dataset of the spec's scenario (§8.6): sensitive
attribute values A (8 rows, 6 of them positive) and B (2 rows, none positive). -/
def dfC1 : DataFrame :=
  [⟨some "A", "yes"⟩, ⟨some "A", "yes"⟩, ⟨some "A", "yes"⟩, ⟨some "A", "yes"⟩,
   ⟨some "A", "yes"⟩, ⟨some "A", "yes"⟩, ⟨some "A", "no"⟩, ⟨some "A", "no"⟩,
   ⟨some "B", "no"⟩, ⟨some "B", "no"⟩]

/-- A small dataset whose majority group A has positive-outcome rate 0. -/
def dfZeroRef : DataFrame :=
  [⟨some "A", "no"⟩, ⟨some "A", "no"⟩, ⟨some "B", "yes"⟩]

/-- A small dataset whose sensitive column holds a single distinct value. -/
def dfSingle : DataFrame :=
  [⟨some "X", "yes"⟩, ⟨some "X", "no"⟩, ⟨some "X", "yes"⟩]

/-!
## Supporting lemmas
-/

theorem pyInt_of_nonneg {q : ℚ} (h : 0 ≤ q) : pyInt q = ⌊q⌋ := by
  simp [pyInt, h]

theorem pyInt_mono_of_nonneg {a b : ℚ} (ha : 0 ≤ a) (hab : a ≤ b) :
    pyInt a ≤ pyInt b := by
  rw [pyInt_of_nonneg ha, pyInt_of_nonneg (ha.trans hab)]
  exact Int.floor_le_floor hab

theorem fbvSeverity_nonneg (m l h s d : ℚ) : 0 ≤ fbvSeverity m l h s d :=
  le_trans (le_max_left 0 _) (le_max_right _ _)

theorem fbv_bias_percentage (m l h s d : ℚ) :
    (final_bias_verdict m l h s d).bias_percentage =
      pyInt (fbvSeverity m l h s d * 100) := by
  simp only [final_bias_verdict]
  split
  · rfl
  · split <;> rfl

theorem fbv_cases (m l h s d : ℚ) :
    (60 ≤ (final_bias_verdict m l h s d).bias_percentage ∧
      (final_bias_verdict m l h s d).verdict = "BIASED") ∨
    ((30 ≤ (final_bias_verdict m l h s d).bias_percentage ∧
        (final_bias_verdict m l h s d).bias_percentage ≤ 59) ∧
      (final_bias_verdict m l h s d).verdict = "POTENTIALLY BIASED") ∨
    ((final_bias_verdict m l h s d).bias_percentage < 30 ∧
      (final_bias_verdict m l h s d).verdict = "NOT BIASED") := by
  simp only [final_bias_verdict]
  split
  · next h60 =>
    refine Or.inl ⟨?_, rfl⟩
    dsimp only
    omega
  · split
    · next h60 h30 =>
      refine Or.inr (Or.inl ⟨⟨?_, ?_⟩, rfl⟩) <;> dsimp only <;> omega
    · next h60 h30 =>
      refine Or.inr (Or.inr ⟨?_, rfl⟩)
      dsimp only
      omega

/-!
## Claims
-/

set_option maxHeartbeats 1600000 in
/-- C1: on the concrete 10-row dataset (8 rows A with 6 positives, 2 rows B with
none), `representation_and_sampling_bias` yields `min_representation = 0.2`, the
reference group is A, `label_bias` yields 0.75, `statistical_parity_difference`
yields 0.75, `disparate_impact` yields 1.0, and `final_bias_verdict` on these
five metrics yields `bias_percentage = 100` and verdict `"BIASED"`. -/
theorem concrete_scenario_holds :
    (representation_and_sampling_bias dfC1).2 = 0.2 ∧
    reference_group dfC1 = "A" ∧
    label_bias dfC1 "yes" = 0.75 ∧
    statistical_parity_difference dfC1 "yes" (reference_group dfC1) = 0.75 ∧
    disparate_impact dfC1 "yes" (reference_group dfC1) = 1 ∧
    (final_bias_verdict 0.2 0.75 0.75 0.75 1).bias_percentage = 100 ∧
    (final_bias_verdict 0.2 0.75 0.75 0.75 1).verdict = "BIASED" := by
  have href : reference_group dfC1 = "A" := by decide
  refine ⟨?_, href, ?_, ?_, ?_, ?_, ?_⟩
  · simp +decide [representation_and_sampling_bias, colCount, sensColumn,
      firstUnique, firstUniqueAux, listMin, dfC1]
    norm_num [round3, roundHalfEven, Rat.floor_def]
  · simp +decide [label_bias, groupsDropna, firstUnique, firstUniqueAux,
      posRate, groupRows, listMax, listMin, dfC1]
    norm_num [round3, roundHalfEven, Rat.floor_def]
  · rw [href]
    simp +decide [statistical_parity_difference, groupsDropna, firstUnique,
      firstUniqueAux, posRate, groupRows, listMax, dfC1]
    norm_num [round3, roundHalfEven, Rat.floor_def, abs_of_nonneg, abs_neg]
  · rw [href]
    simp +decide [disparate_impact, diDeviations, groupsDropna, firstUnique,
      firstUniqueAux, posRate, groupRows, listMax, dfC1]
    norm_num [round3, roundHalfEven, Rat.floor_def, abs_of_nonneg, abs_neg]
  · norm_num [final_bias_verdict, pyInt]
  · norm_num [final_bias_verdict, pyInt]

/-- C3: `label_bias` and `historical_bias` compute the identical max-minus-min
spread of per-group positive-outcome rates, so they agree on every dataset and
positive label. -/
theorem label_bias_eq_historical_bias (df : DataFrame) (positive : String) :
    label_bias df positive = historical_bias df positive := rfl

/-- C2: `final_bias_verdict` computes `bias_percentage` as the integer floor of
`severity * 100`, and returns `"BIASED"` exactly when `bias_percentage ≥ 60`,
`"POTENTIALLY BIASED"` exactly when `30 ≤ bias_percentage ≤ 59`, and
`"NOT BIASED"` exactly when `bias_percentage < 30`; in particular
`bias_percentage` 60 gives `"BIASED"`, 59 gives `"POTENTIALLY BIASED"`, 30 gives
`"POTENTIALLY BIASED"`, and 29 gives `"NOT BIASED"`. -/
theorem verdict_tier_boundaries (m l h s d : ℚ) :
    (final_bias_verdict m l h s d).bias_percentage =
      ⌊fbvSeverity m l h s d * 100⌋ ∧
    ((final_bias_verdict m l h s d).verdict = "BIASED" ↔
      60 ≤ (final_bias_verdict m l h s d).bias_percentage) ∧
    ((final_bias_verdict m l h s d).verdict = "POTENTIALLY BIASED" ↔
      30 ≤ (final_bias_verdict m l h s d).bias_percentage ∧
        (final_bias_verdict m l h s d).bias_percentage ≤ 59) ∧
    ((final_bias_verdict m l h s d).verdict = "NOT BIASED" ↔
      (final_bias_verdict m l h s d).bias_percentage < 30) ∧
    (final_bias_verdict 0.5 0.18 0 0 0).bias_percentage = 60 ∧
    (final_bias_verdict 0.5 0.18 0 0 0).verdict = "BIASED" ∧
    (final_bias_verdict 0.5 0.1785 0 0 0).bias_percentage = 59 ∧
    (final_bias_verdict 0.5 0.1785 0 0 0).verdict = "POTENTIALLY BIASED" ∧
    (final_bias_verdict 0.5 0.09 0 0 0).bias_percentage = 30 ∧
    (final_bias_verdict 0.5 0.09 0 0 0).verdict = "POTENTIALLY BIASED" ∧
    (final_bias_verdict 0.5 0.0885 0 0 0).bias_percentage = 29 ∧
    (final_bias_verdict 0.5 0.0885 0 0 0).verdict = "NOT BIASED" := by
  refine ⟨?_, ?_, ?_, ?_, ?_, ?_, ?_, ?_, ?_, ?_, ?_, ?_⟩
  · rw [fbv_bias_percentage,
      pyInt_of_nonneg (mul_nonneg (fbvSeverity_nonneg m l h s d) (by norm_num))]
  · rcases fbv_cases m l h s d with ⟨hbp, hv⟩ | ⟨⟨hbp1, hbp2⟩, hv⟩ | ⟨hbp, hv⟩ <;>
      rw [hv] <;> simp +decide <;> omega
  · rcases fbv_cases m l h s d with ⟨hbp, hv⟩ | ⟨⟨hbp1, hbp2⟩, hv⟩ | ⟨hbp, hv⟩ <;>
      rw [hv] <;> simp +decide <;> omega
  · rcases fbv_cases m l h s d with ⟨hbp, hv⟩ | ⟨⟨hbp1, hbp2⟩, hv⟩ | ⟨hbp, hv⟩ <;>
      rw [hv] <;> simp +decide <;> omega
  · norm_num [final_bias_verdict, pyInt]
  · norm_num [final_bias_verdict, pyInt]
  · norm_num [final_bias_verdict, pyInt]
  · norm_num [final_bias_verdict, pyInt]
  · norm_num [final_bias_verdict, pyInt]
  · norm_num [final_bias_verdict, pyInt]
  · norm_num [final_bias_verdict, pyInt]
  · norm_num [final_bias_verdict, pyInt]

/-- C4: `bias_percentage` of `final_bias_verdict` is antitone in
`min_representation` and monotone in each of `label_diff`, `historical_diff`,
`max_spd`, `max_di_deviation`, the other inputs held fixed. -/
theorem bias_percentage_monotone (mr mr' ld ld' hd hd' sp sp' dv dv' : ℚ) :
    (mr ≤ mr' →
      (final_bias_verdict mr' ld hd sp dv).bias_percentage ≤
        (final_bias_verdict mr ld hd sp dv).bias_percentage) ∧
    (ld ≤ ld' →
      (final_bias_verdict mr ld hd sp dv).bias_percentage ≤
        (final_bias_verdict mr ld' hd sp dv).bias_percentage) ∧
    (hd ≤ hd' →
      (final_bias_verdict mr ld hd sp dv).bias_percentage ≤
        (final_bias_verdict mr ld hd' sp dv).bias_percentage) ∧
    (sp ≤ sp' →
      (final_bias_verdict mr ld hd sp dv).bias_percentage ≤
        (final_bias_verdict mr ld hd sp' dv).bias_percentage) ∧
    (dv ≤ dv' →
      (final_bias_verdict mr ld hd sp dv).bias_percentage ≤
        (final_bias_verdict mr ld hd sp dv').bias_percentage) := by
  refine ⟨?_, ?_, ?_, ?_, ?_⟩ <;> intro hle <;>
    rw [fbv_bias_percentage, fbv_bias_percentage] <;>
    refine pyInt_mono_of_nonneg
      (mul_nonneg (fbvSeverity_nonneg _ _ _ _ _) (by norm_num))
      (mul_le_mul_of_nonneg_right ?_ (by norm_num)) <;>
    simp only [fbvSeverity] <;> gcongr

/-- Witness for C4: the monotonicity statements at concrete inputs. -/
theorem bias_percentage_monotone_witness :
    ((final_bias_verdict 0.3 0.1 0.1 0.05 0.1).bias_percentage ≤
      (final_bias_verdict 0.2 0.1 0.1 0.05 0.1).bias_percentage) ∧
    ((final_bias_verdict 0.2 0.1 0.1 0.05 0.1).bias_percentage ≤
      (final_bias_verdict 0.2 0.15 0.1 0.05 0.1).bias_percentage) ∧
    ((final_bias_verdict 0.2 0.1 0.1 0.05 0.1).bias_percentage ≤
      (final_bias_verdict 0.2 0.1 0.15 0.05 0.1).bias_percentage) ∧
    ((final_bias_verdict 0.2 0.1 0.1 0.05 0.1).bias_percentage ≤
      (final_bias_verdict 0.2 0.1 0.1 0.1 0.1).bias_percentage) ∧
    ((final_bias_verdict 0.2 0.1 0.1 0.05 0.1).bias_percentage ≤
      (final_bias_verdict 0.2 0.1 0.1 0.05 0.2).bias_percentage) := by
  have H := bias_percentage_monotone 0.2 0.3 0.1 0.15 0.1 0.15 0.05 0.1 0.1 0.2
  exact ⟨H.1 (by norm_num), H.2.1 (by norm_num), H.2.2.1 (by norm_num),
    H.2.2.2.1 (by norm_num), H.2.2.2.2 (by norm_num)⟩

/-- C5: `unsupervised_bias_verdict` at `min_representation = 0.4` returns the
no-direct-evidence verdict with `bias_percentage = 20`; in general its
`bias_percentage` is `floor((0.5 - min_representation)/0.5 * 100)` clamped to
`[0, 100]`, and the reason string is the same fixed string for every tier. -/
theorem unsupervised_boundary (m : ℚ) :
    (unsupervised_bias_verdict 0.4).verdict =
      "NO DIRECT EVIDENCE OF BIAS (UNSUPERVISED)" ∧
    (unsupervised_bias_verdict 0.4).bias_percentage = 20 ∧
    (unsupervised_bias_verdict m).bias_percentage =
      max 0 (min ⌊(0.5 - m) / 0.5 * 100⌋ 100) ∧
    (unsupervised_bias_verdict m).reason =
      "Assessment based solely on group representation. Outcome fairness cannot be evaluated without labels." := by
  refine ⟨by norm_num [unsupervised_bias_verdict, pyInt],
    by norm_num [unsupervised_bias_verdict, pyInt], ?_, rfl⟩
  simp only [unsupervised_bias_verdict]
  rcases le_or_lt 0 ((0.5 - m) / 0.5 * 100) with hq | hq
  · rw [pyInt_of_nonneg hq]
  · have h1 : pyInt ((0.5 - m) / 0.5 * 100) ≤ 0 := by
      rw [pyInt, if_neg (not_le.mpr hq)]
      have h0 : (0 : ℤ) ≤ ⌊-((0.5 - m) / 0.5 * 100)⌋ :=
        Int.le_floor.mpr (by push_cast; linarith)
      omega
    have h2 : ⌊(0.5 - m) / 0.5 * 100⌋ ≤ 0 := by
      simpa using Int.floor_le_floor hq.le
    omega

theorem foldr_drop_all {α : Type} (l : List α) :
    l.foldr (fun _ acc => acc) ([] : List ℚ) = [] := by
  induction l with
  | nil => rfl
  | cons x xs ih => simp only [List.foldr_cons, ih]

/-- C7: when the reference group's positive rate is exactly 0, every group is
skipped in `disparate_impact`, the deviation list stays empty, and the function
returns 0 rather than dividing by zero. -/
theorem disparate_impact_zero_ref (df : DataFrame) (positive rg : String)
    (h : posRate df positive rg = 0) :
    diDeviations df positive rg = [] ∧ disparate_impact df positive rg = 0 := by
  have hd : diDeviations df positive rg = [] := by
    simp only [diDeviations, h, gt_iff_lt, lt_self_iff_false, if_false]
    exact foldr_drop_all _
  refine ⟨hd, ?_⟩
  simp only [disparate_impact, hd, ne_eq, not_true_eq_false, if_false]
  norm_num [round3, roundHalfEven, Rat.floor_def]

/-- Witness for C7 on a concrete dataset whose reference group A has positive
rate 0. -/
theorem disparate_impact_zero_ref_witness :
    diDeviations dfZeroRef "yes" "A" = [] ∧
    disparate_impact dfZeroRef "yes" "A" = 0 :=
  disparate_impact_zero_ref dfZeroRef "yes" "A"
    (by simp +decide [posRate, groupRows, dfZeroRef])

theorem map_sensitive_of_const {df : DataFrame} {v : String}
    (h : ∀ r ∈ df, r.sensitive = some v) :
    sensColumn df = List.replicate df.length (some v) := by
  induction df with
  | nil => rfl
  | cons r rs ih =>
    simp only [sensColumn, List.map_cons, List.length_cons, List.replicate_succ,
      h r (by simp)]
    exact congrArg _ (ih (fun x hx => h x (by simp [hx])))

theorem filterMap_sensitive_of_const {df : DataFrame} {v : String}
    (h : ∀ r ∈ df, r.sensitive = some v) :
    df.filterMap Row.sensitive = List.replicate df.length v := by
  induction df with
  | nil => rfl
  | cons r rs ih =>
    simp only [List.filterMap_cons, List.length_cons, List.replicate_succ,
      h r (by simp)]
    exact congrArg _ (ih (fun x hx => h x (by simp [hx])))

theorem firstUniqueAux_replicate_of_mem {α : Type} [DecidableEq α] (n : ℕ)
    (c : α) (seen : List α) (h : c ∈ seen) :
    firstUniqueAux (List.replicate n c) seen = [] := by
  induction n with
  | zero => rfl
  | succ k ih => simp [List.replicate_succ, firstUniqueAux, h, ih]

theorem firstUnique_replicate {α : Type} [DecidableEq α] (n : ℕ) (c : α)
    (hn : n ≠ 0) : firstUnique (List.replicate n c) = [c] := by
  cases n with
  | zero => cases hn rfl
  | succ k =>
    simp [firstUnique, List.replicate_succ, firstUniqueAux,
      firstUniqueAux_replicate_of_mem k c [c] (by simp)]

/-- C8: a nonempty dataset whose sensitive-attribute column holds a single
distinct value has `min_representation = 1.0`, and `label_bias` and
`historical_bias` special-case the fewer-than-2-groups situation to 0. -/
theorem single_group_case (df : DataFrame) (v positive : String)
    (hne : df ≠ []) (hall : ∀ r ∈ df, r.sensitive = some v) :
    (representation_and_sampling_bias df).2 = 1 ∧
    label_bias df positive = 0 ∧
    historical_bias df positive = 0 := by
  have hlen : df.length ≠ 0 := by
    simp [hne]
  have hcol : sensColumn df = List.replicate df.length (some v) :=
    map_sensitive_of_const hall
  have huniq : firstUnique (sensColumn df) = [some v] := by
    rw [hcol]; exact firstUnique_replicate _ _ hlen
  have hcount : colCount df (some v) = df.length := by
    rw [colCount, hcol]; simp
  have hrep : (representation_and_sampling_bias df).2 = 1 := by
    simp only [representation_and_sampling_bias, huniq, List.map_cons,
      List.map_nil, listMin, List.foldl_nil, hcount]
    rw [div_self (by exact_mod_cast hlen)]
    norm_num [round3, roundHalfEven, Rat.floor_def]
  have hgroups : groupsDropna df = [v] := by
    rw [groupsDropna, filterMap_sensitive_of_const hall]
    exact firstUnique_replicate _ _ hlen
  have hlab : label_bias df positive = 0 := by
    simp only [label_bias, hgroups, List.map_cons, List.map_nil,
      List.length_cons, List.length_nil]
    norm_num [round3, roundHalfEven, Rat.floor_def]
  exact ⟨hrep, hlab, hlab⟩

/-- Witness for C8 on a concrete 3-row single-group dataset. -/
theorem single_group_case_witness :
    (representation_and_sampling_bias dfSingle).2 = 1 ∧
    label_bias dfSingle "yes" = 0 ∧
    historical_bias dfSingle "yes" = 0 :=
  single_group_case dfSingle "X" "yes" (by simp [dfSingle]) (by decide)

set_option maxHeartbeats 1600000 in
/-- C9: both `detect_bias_types` and `diagnose_bias_and_recommend_fixes` append
"Representation Bias" iff `min_representation < 0.4`, "Label Bias" iff
`label_diff > 0.2`, "Historical Bias" iff `historical_diff > 0.2`, "Outcome
Bias" iff `max_spd > 0.1` or `max_di_deviation > 0.2`, in exactly that check
order (both lists equal the ordered spec-side rule list `specBiasTypes`), and
return the single sentinel exactly when no rule triggers. -/
theorem bias_type_rules (a b c d e : ℚ) :
    detect_bias_types a b c d e = specBiasTypes a b c d e ∧
    (diagnose_bias_and_recommend_fixes a b c d e).1 = specBiasTypes a b c d e ∧
    ("Representation Bias" ∈ detect_bias_types a b c d e ↔ a < 0.4) ∧
    ("Label Bias" ∈ detect_bias_types a b c d e ↔ b > 0.2) ∧
    ("Historical Bias" ∈ detect_bias_types a b c d e ↔ c > 0.2) ∧
    ("Outcome Bias" ∈ detect_bias_types a b c d e ↔ (d > 0.1 ∨ e > 0.2)) ∧
    (detect_bias_types a b c d e = ["No Significant Bias Detected"] ↔
      ¬a < 0.4 ∧ ¬b > 0.2 ∧ ¬c > 0.2 ∧ ¬(d > 0.1 ∨ e > 0.2)) := by
  by_cases h1 : a < 0.4 <;> by_cases h2 : b > 0.2 <;> by_cases h3 : c > 0.2 <;>
    by_cases h4 : d > 0.1 <;> by_cases h5 : e > 0.2 <;>
    simp +decide [detect_bias_types, diagnose_bias_and_recommend_fixes,
      specBiasTypes, h1, h2, h3, h4, h5]

set_option maxHeartbeats 1600000 in
/-- C10: `diagnose_bias_and_recommend_fixes` returns a non-empty `bias_types`
list, the key list of the returned `fixes` dictionary is exactly `bias_types`,
and every key maps to a non-empty list of recommendation strings. -/
theorem diagnose_fixes_keys (a b c d e : ℚ) :
    (diagnose_bias_and_recommend_fixes a b c d e).1 ≠ [] ∧
    (∀ k : String,
      k ∈ ((diagnose_bias_and_recommend_fixes a b c d e).2).map Prod.fst ↔
        k ∈ (diagnose_bias_and_recommend_fixes a b c d e).1) ∧
    (∀ p ∈ (diagnose_bias_and_recommend_fixes a b c d e).2, p.2 ≠ []) := by
  by_cases h1 : a < 0.4 <;> by_cases h2 : b > 0.2 <;> by_cases h3 : c > 0.2 <;>
    by_cases h4 : d > 0.1 <;> by_cases h5 : e > 0.2 <;>
    simp +decide [diagnose_bias_and_recommend_fixes, h1, h2, h3, h4, h5]

/-- Witness for C10 at a concrete no-bias input, where the sentinel entry is
produced. -/
theorem diagnose_fixes_keys_witness :
    (diagnose_bias_and_recommend_fixes 0.5 0 0 0 0).1 ≠ [] ∧
    ("No Significant Bias Detected" ∈
        ((diagnose_bias_and_recommend_fixes 0.5 0 0 0 0).2).map Prod.fst ↔
      "No Significant Bias Detected" ∈
        (diagnose_bias_and_recommend_fixes 0.5 0 0 0 0).1) ∧
    (("No Significant Bias Detected",
        ["Continue monitoring bias over time",
         "Validate fairness after model training"]) ∈
        (diagnose_bias_and_recommend_fixes 0.5 0 0 0 0).2 →
      (["Continue monitoring bias over time",
        "Validate fairness after model training"] : List String) ≠ []) := by
  have H := diagnose_fixes_keys 0.5 0 0 0 0
  exact ⟨H.1, H.2.1 "No Significant Bias Detected", fun hp => H.2.2 _ hp⟩

theorem foldl_max_bounds (xs : List ℕ) :
    ∀ a : ℕ, a ≤ xs.foldl max a ∧ ∀ x ∈ xs, x ≤ xs.foldl max a := by
  induction xs with
  | nil => exact fun a => ⟨le_rfl, by simp⟩
  | cons y ys ih =>
    intro a
    refine ⟨le_trans (le_max_left a y) (ih (max a y)).1, ?_⟩
    intro x hx
    rcases List.mem_cons.mp hx with rfl | hx
    · exact le_trans (le_max_right a x) (ih (max a x)).1
    · exact (ih (max a y)).2 x hx

theorem le_listMaxNat {l : List ℕ} {x : ℕ} (h : x ∈ l) : x ≤ listMaxNat l := by
  cases l with
  | nil => cases h
  | cons y ys =>
    rcases List.mem_cons.mp h with rfl | hx
    · exact (foldl_max_bounds ys x).1
    · exact (foldl_max_bounds ys y).2 x hx

theorem foldl_max_mem (xs : List ℕ) :
    ∀ a : ℕ, xs.foldl max a = a ∨ xs.foldl max a ∈ xs := by
  induction xs with
  | nil => exact fun a => Or.inl rfl
  | cons y ys ih =>
    intro a
    rcases ih (max a y) with h | h
    · rcases max_choice a y with hm | hm
      · exact Or.inl (by rw [List.foldl_cons, h, hm])
      · exact Or.inr (by rw [List.foldl_cons, h, hm]; exact List.mem_cons_self y ys)
    · exact Or.inr (List.mem_cons_of_mem y h)

theorem listMaxNat_mem {l : List ℕ} (h : l ≠ []) : listMaxNat l ∈ l := by
  cases l with
  | nil => cases h rfl
  | cons y ys =>
    rcases foldl_max_mem ys y with hm | hm
    · rw [listMaxNat, hm]; exact List.mem_cons_self y ys
    · exact List.mem_cons_of_mem y hm

theorem mem_insertDesc (df : DataFrame) (e : Option String)
    (l : List (Option String)) (x : Option String) :
    x ∈ insertDesc df e l ↔ x = e ∨ x ∈ l := by
  induction l with
  | nil => simp [insertDesc]
  | cons y ys ih =>
    by_cases hc : colCount df e ≤ colCount df y
    · rw [insertDesc, if_pos hc]
      simp only [List.mem_cons, ih]
      tauto
    · rw [insertDesc, if_neg hc]
      simp only [List.mem_cons]

theorem length_insertDesc (df : DataFrame) (e : Option String) :
    ∀ l : List (Option String), (insertDesc df e l).length = l.length + 1 := by
  intro l
  induction l with
  | nil => rfl
  | cons y ys ih =>
    by_cases hc : colCount df e ≤ colCount df y
    · rw [insertDesc, if_pos hc]; simp [ih]
    · rw [insertDesc, if_neg hc]; simp

theorem mem_foldl_insertDesc (df : DataFrame) :
    ∀ (l acc : List (Option String)) (x : Option String),
      x ∈ l.foldl (fun a e => insertDesc df e a) acc ↔ x ∈ acc ∨ x ∈ l := by
  intro l
  induction l with
  | nil => simp
  | cons y ys ih =>
    intro acc x
    rw [List.foldl_cons, ih (insertDesc df y acc) x, mem_insertDesc]
    simp only [List.mem_cons]
    tauto

theorem mem_sortByCountDesc (df : DataFrame) (l : List (Option String))
    (x : Option String) : x ∈ sortByCountDesc df l ↔ x ∈ l := by
  rw [sortByCountDesc, mem_foldl_insertDesc]
  simp

theorem length_foldl_insertDesc (df : DataFrame) :
    ∀ (l acc : List (Option String)),
      (l.foldl (fun a e => insertDesc df e a) acc).length =
        acc.length + l.length := by
  intro l
  induction l with
  | nil => simp
  | cons y ys ih =>
    intro acc
    rw [List.foldl_cons, ih (insertDesc df y acc), length_insertDesc]
    simp only [List.length_cons]
    omega

theorem mem_of_mem_firstUniqueAux {α : Type} [DecidableEq α] :
    ∀ (l seen : List α) (x : α), x ∈ firstUniqueAux l seen → x ∈ l := by
  intro l
  induction l with
  | nil => intro seen x h; cases h
  | cons y ys ih =>
    intro seen x h
    rw [firstUniqueAux] at h
    by_cases hy : y ∈ seen
    · rw [if_pos hy] at h
      exact List.mem_cons_of_mem y (ih seen x h)
    · rw [if_neg hy] at h
      rcases List.mem_cons.mp h with rfl | h
      · exact List.mem_cons_self x ys
      · exact List.mem_cons_of_mem y (ih (y :: seen) x h)

theorem mem_firstUniqueAux_of_mem {α : Type} [DecidableEq α] :
    ∀ (l seen : List α) (x : α), x ∈ l →
      x ∈ firstUniqueAux l seen ∨ x ∈ seen := by
  intro l
  induction l with
  | nil => intro seen x h; cases h
  | cons y ys ih =>
    intro seen x h
    rw [firstUniqueAux]
    by_cases hy : y ∈ seen
    · rw [if_pos hy]
      rcases List.mem_cons.mp h with rfl | h
      · exact Or.inr hy
      · exact ih seen x h
    · rw [if_neg hy]
      rcases List.mem_cons.mp h with rfl | h
      · exact Or.inl (List.mem_cons_self x _)
      · rcases ih (y :: seen) x h with hin | hin
        · exact Or.inl (List.mem_cons_of_mem y hin)
        · rcases List.mem_cons.mp hin with rfl | hin
          · exact Or.inl (List.mem_cons_self x _)
          · exact Or.inr hin

theorem mem_firstUnique_iff {α : Type} [DecidableEq α] (l : List α) (x : α) :
    x ∈ firstUnique l ↔ x ∈ l := by
  constructor
  · exact mem_of_mem_firstUniqueAux l [] x
  · intro h
    rcases mem_firstUniqueAux_of_mem l [] x h with hin | hin
    · exact hin
    · cases hin

theorem firstUnique_ne_nil {α : Type} [DecidableEq α] {l : List α}
    (h : l ≠ []) : firstUnique l ≠ [] := by
  cases l with
  | nil => cases h rfl
  | cons x xs => simp [firstUnique, firstUniqueAux]

/-- C6: on a nonempty dataset with no missing sensitive values, the reference
group computed by the supervised-analysis block of `dashboard/app.py` occurs in
the sensitive column and its raw count is maximal: it is the mode group, whose
positive-outcome rate is then the `ref_rate` baseline that
`statistical_parity_difference` and `disparate_impact` compute for it. -/
theorem reference_group_is_mode (df : DataFrame) (hne : df ≠ [])
    (hnm : ∀ r ∈ df, r.sensitive ≠ none) :
    some (reference_group df) ∈ sensColumn df ∧
    ∀ w ∈ sensColumn df,
      colCount df w ≤ colCount df (some (reference_group df)) := by
  have hrep : (representation_and_sampling_bias df).1 =
      (sortByCountDesc df (firstUnique (sensColumn df))).map
        (fun g => RepRow.mk (sensToStr g) (colCount df g)
          (round3 ((colCount df g : ℚ) / (df.length : ℚ)))) := rfl
  set f : Option String → RepRow := fun g =>
    RepRow.mk (sensToStr g) (colCount df g)
      (round3 ((colCount df g : ℚ) / (df.length : ℚ)))
    with hf
  set K := sortByCountDesc df (firstUnique (sensColumn df)) with hKdef
  have hcolne : sensColumn df ≠ [] := by
    intro h
    exact hne (List.map_eq_nil_iff.mp h)
  have hLne : firstUnique (sensColumn df) ≠ [] := firstUnique_ne_nil hcolne
  have hKne : K ≠ [] := by
    intro h
    have hlen : K.length = (firstUnique (sensColumn df)).length := by
      rw [hKdef, sortByCountDesc, length_foldl_insertDesc]
      simp
    rw [h] at hlen
    simp only [List.length_nil] at hlen
    exact hLne (List.length_eq_zero.mp hlen.symm)
  have hmapne : K.map f ≠ [] := by
    intro h
    exact hKne (List.map_eq_nil_iff.mp h)
  set m := listMaxNat ((K.map f).map RepRow.count) with hm
  have hcntne : (K.map f).map RepRow.count ≠ [] := by
    intro h
    exact hmapne (List.map_eq_nil_iff.mp h)
  have hmmem : m ∈ (K.map f).map RepRow.count := listMaxNat_mem hcntne
  obtain ⟨r, hrmem, hrcount⟩ := List.mem_map.mp hmmem
  have hex : ∃ x ∈ K.map f, (fun rr =>
      rr.count == listMaxNat ((K.map f).map RepRow.count)) x = true :=
    ⟨r, hrmem, by simp [hrcount, hm]⟩
  have hlt : (K.map f).findIdx (fun rr =>
      rr.count == listMaxNat ((K.map f).map RepRow.count)) < (K.map f).length :=
    List.findIdx_lt_length_of_exists hex
  have hidx : idxmaxCount (K.map f) = (K.map f).findIdx (fun rr =>
      rr.count == listMaxNat ((K.map f).map RepRow.count)) := rfl
  have hget : (K.map f)[idxmaxCount (K.map f)]? =
      some ((K.map f).get ⟨idxmaxCount (K.map f), hidx ▸ hlt⟩) := by
    rw [List.getElem?_eq_getElem (hidx ▸ hlt)]
    simp
  have hrefdef : reference_group df =
      ((K.map f).get ⟨idxmaxCount (K.map f), hidx ▸ hlt⟩).group := by
    simp only [reference_group, hrep]
    rw [hget]
    rfl
  set r0 := (K.map f).get ⟨idxmaxCount (K.map f), hidx ▸ hlt⟩ with hr0
  have hr0p : (r0.count == listMaxNat ((K.map f).map RepRow.count)) = true :=
    @List.findIdx_getElem _ _ _ hlt
  have hr0count : r0.count = m := by
    rw [← hm] at hr0p
    exact beq_iff_eq.mp hr0p
  have hr0mem : r0 ∈ K.map f := List.get_mem _ _ _
  obtain ⟨g0, hg0K, hg0⟩ := List.mem_map.mp hr0mem
  have hg0col : g0 ∈ sensColumn df := by
    rw [hKdef] at hg0K
    rw [mem_sortByCountDesc] at hg0K
    exact (mem_firstUnique_iff _ _).mp hg0K
  obtain ⟨rr, hrr, hrrs⟩ := List.mem_map.mp hg0col
  obtain ⟨s, hs⟩ := Option.ne_none_iff_exists'.mp (hnm rr hrr)
  have hg0some : g0 = some s := by rw [← hrrs, hs]
  have hrefs : reference_group df = s := by
    rw [hrefdef, ← hg0, hg0some]
    simp [hf, sensToStr]
  have hsome : some (reference_group df) = g0 := by rw [hrefs, hg0some]
  have hcount0 : colCount df (some (reference_group df)) = m := by
    rw [hsome, ← hr0count, ← hg0]
  constructor
  · rw [hsome]; exact hg0col
  · intro w hw
    rw [hcount0]
    have hwK : w ∈ K := by
      rw [hKdef, mem_sortByCountDesc, mem_firstUnique_iff]
      exact hw
    have : (f w).count ∈ (K.map f).map RepRow.count :=
      List.mem_map_of_mem RepRow.count (List.mem_map_of_mem f hwK)
    have hle := le_listMaxNat this
    rw [← hm] at hle
    exact hle

/-- Witness for C6 on the concrete 10-row dataset, whose mode group is A. -/
theorem reference_group_is_mode_witness :
    some (reference_group dfC1) ∈ sensColumn dfC1 ∧
    colCount dfC1 (some "B") ≤ colCount dfC1 (some (reference_group dfC1)) := by
  have H := reference_group_is_mode dfC1 (by simp [dfC1]) (by decide)
  exact ⟨H.1, H.2 (some "B") (by decide)⟩

end BiasDetection
